import Mathlib

/-!
# Verification of the Bilibili → YouTube relay bot (`bot.py`)

Shallow embedding of the pure control structure of `bot.py`: the ledger
save/load pair, the translation fallback chain, the upload adapter's retry
loop, the download-retry engine, the per-item fallback discovery probe and
the run controller's main loop.  External effects (subprocess invocations,
HTTP calls, the filesystem) are abstracted as parameters recording only the
outcome the surrounding control flow branches on; every branch and counter
update of the Python source is reproduced.
-/

namespace BiliBot

/-! ## Python truthiness helpers -/

/-- Python `a or b` on strings: `""` is falsy. -/
def pyOr (a b : String) : String := if a = "" then b else a

/-- Python truthiness of an optional string (`None` and `""` are falsy).
Used for `if video_id:` at line 606 of `bot.py`. -/
def truthy : Option String → Bool
  | none => false
  | some s => s != ""

/-! ## Ledger store (`load_json_set`, lines 86-92; `save_downloaded_ids_and_commit`,
lines 97-114)

The file on disk is modelled as `Option (List String)`: `none` stands for a
missing (or unparsable, line 90-91) file, `some l` for a JSON array holding
the strings of `l` in order.  JSON serialization itself is treated as the
identity transport on the array. -/

/-- `load_json_set` (lines 86-92): read the JSON array into a set; a missing
or corrupt file yields the empty set. -/
def load_json_set : Option (List String) → Finset String
  | some l => l.toFinset
  | none => ∅

/-- `save_downloaded_ids_and_commit` (lines 97-114): writes
`sorted(list(ids_set))` to the file (line 98).  The optional git
commit/push (lines 100-114) does not change the file's content and is a
no-op when `github_token` is `none` and `GITHUB_TOKEN` is unset (line 101-102),
so the function is modelled by the file content it writes. -/
def save_downloaded_ids_and_commit (ids_set : Finset String)
    (github_token : Option String) : Option (List String) :=
  some (ids_set.sort (· ≤ ·))

/-! ## Translation fallback chain (`translate_title_for_vid`, lines 201-238)

The cache `translations_cache` is a string-keyed dictionary, modelled as an
association list.  The five strategies (lines 206-212: `try_googletrans`,
`try_deep_google`, `try_deep_libre`, `try_mymemory`, `try_unidecode`) each
swallow every exception and return `None` on failure, so a strategy's
outcome is an `Option String`; the chain is parametrised by the list of
outcomes the strategies would produce for the given title.  The optional
fallback file `fallback_title.txt` (lines 227-235) is modelled as
`Option String` (its content, `none` when absent or unreadable). -/

/-- Python dictionary lookup on an association list. -/
def lookupCache : List (String × String) → String → Option String
  | [], _ => none
  | p :: rest, k => if p.1 = k then some p.2 else lookupCache rest k

/-- Python dictionary assignment `cache[k] = v` on an association list. -/
def cacheSet : List (String × String) → String → String → List (String × String)
  | [], k, v => [(k, v)]
  | p :: rest, k, v => if p.1 = k then (k, v) :: rest else p :: cacheSet rest k v

/-- The `for name, fn in attempts` loop (lines 214-223): call each strategy
in order until one returns text that is non-empty after stripping
(`if translated and translated.strip()`, line 217); the winner is stored
stripped (line 218).  Returns the winning text (if any) and the number of
strategies invoked. -/
def tryStrategies : List (Option String) → Option String × Nat
  | [] => (none, 0)
  | s :: rest =>
    match s with
    | some t =>
      if t.trim ≠ "" then (some t.trim, 1)
      else ((tryStrategies rest).1, (tryStrategies rest).2 + 1)
    | none => ((tryStrategies rest).1, (tryStrategies rest).2 + 1)

/-- A strategy outcome that does not win the loop of lines 214-223:
`None` (exception swallowed) or text that strips to empty. -/
def strategyFails : Option String → Bool
  | none => true
  | some t => t.trim == ""

/-- `translate_title_for_vid` (lines 201-238).  Returns the display title,
the updated cache and the number of strategies invoked (the function never
raises: every failure path degrades to a fallback).  Note the order of the
first two tests: the empty-title early return (line 202-203) precedes the
cache check (line 204-205). -/
def translate_title_for_vid (vid original_title : String)
    (cache : List (String × String)) (strategies : List (Option String))
    (fallback_file : Option String) :
    String × List (String × String) × Nat :=
  -- line 202-203: `if not original_title: return original_title or vid`
  if original_title = "" then (pyOr original_title vid, cache, 0) else
  -- line 204-205: `if vid in translations_cache and translations_cache[vid]`
  let cached := (lookupCache cache vid).getD ""
  if cached ≠ "" then (cached, cache, 0) else
  -- lines 206-226: strategy loop
  match (tryStrategies strategies).1 with
  | some last_success =>
    (last_success, cacheSet cache vid last_success, (tryStrategies strategies).2)
  | none =>
    -- lines 227-235: optional static fallback file
    match fallback_file with
    | some content =>
      if content.trim ≠ "" then
        (content.trim, cacheSet cache vid content.trim, (tryStrategies strategies).2)
      else
        -- lines 236-238
        (pyOr original_title vid, cacheSet cache vid (pyOr original_title vid),
          (tryStrategies strategies).2)
    | none =>
      (pyOr original_title vid, cacheSet cache vid (pyOr original_title vid),
        (tryStrategies strategies).2)

lemma lookupCache_cacheSet_self (c : List (String × String)) (k v : String) :
    lookupCache (cacheSet c k v) k = some v := by
  induction c with
  | nil => simp [cacheSet, lookupCache]
  | cons p rest ih =>
    by_cases h : p.1 = k
    · simp [cacheSet, h, lookupCache]
    · simp [cacheSet, h, lookupCache, ih]

lemma tryStrategies_all_fail (l : List (Option String))
    (h : l.all strategyFails = true) : tryStrategies l = (none, l.length) := by
  induction l with
  | nil => simp [tryStrategies]
  | cons s rest ih =>
    rw [List.all_cons, Bool.and_eq_true] at h
    cases s with
    | none => simp [tryStrategies, ih h.2]
    | some t =>
      have ht : t.trim = "" := by
        have := h.1
        simpa [strategyFails] using this
      simp [tryStrategies, ht, ih h.2]

/-! ## Claim theorems for the ledger and the translation chain -/

/-- C10: saving the processed-ID ledger with `save_downloaded_ids_and_commit`
(remote commit disabled, `github_token = none`) and loading it back with
`load_json_set` returns exactly the original set of ids — the save/load pair
is a round-trip on sets of ids. -/
theorem ledger_save_load_roundtrip (s : Finset String) :
    load_json_set (save_downloaded_ids_and_commit s none) = s := by
  simp [load_json_set, save_downloaded_ids_and_commit, Finset.sort_toFinset]

/-- C5 counterexample: the claim "for every id whose cache entry exists and
is non-empty, the translation chain returns that cached value" is false when
the raw title is empty: the early return of line 202-203 of `bot.py` runs
before the cache check of line 204-205, so with `cache["v"] = "cached"`
(non-empty) and an empty title the chain returns `"v"`, not `"cached"`. -/
theorem translation_cache_hit_empty_title_cx :
    lookupCache [("v", "cached")] "v" = some "cached" ∧ "cached" ≠ "" ∧
    (translate_title_for_vid "v" "" [("v", "cached")]
        [none, none, none, none, none] none).1 = "v" ∧
    (translate_title_for_vid "v" "" [("v", "cached")]
        [none, none, none, none, none] none).1 ≠ "cached" := by
  refine ⟨by decide, by decide, by decide, by decide⟩

/-- C5 (amended): for every id whose cache entry exists and is non-empty,
when the raw title is non-empty the translation chain returns the cached
value immediately, with the cache untouched and zero strategy invocations;
when the raw title is empty it returns the id itself, also with the cache
untouched and zero strategy invocations.  In particular a second call for
the same id with a populated cache performs no strategy calls. -/
theorem translation_memoization (vid title : String)
    (cache : List (String × String)) (strategies : List (Option String))
    (fallback_file : Option String) (v : String)
    (hv : lookupCache cache vid = some v) (hne : v ≠ "") :
    (title ≠ "" →
      translate_title_for_vid vid title cache strategies fallback_file
        = (v, cache, 0)) ∧
    (title = "" →
      translate_title_for_vid vid title cache strategies fallback_file
        = (vid, cache, 0)) := by
  constructor
  · intro ht
    simp [translate_title_for_vid, ht, hv, hne]
  · intro ht
    simp [translate_title_for_vid, ht, pyOr]

/-- C5 witness: a populated cache entry is returned as-is with zero
strategy invocations. -/
theorem translation_memoization_witness :
    translate_title_for_vid "v" "t" [("v", "w")] [none, none, none, none, none] none
      = ("w", [("v", "w")], 0) :=
  (translation_memoization "v" "t" [("v", "w")] [none, none, none, none, none]
    none "w" (by decide) (by decide)).1 (by decide)

/-- C6 counterexample: the claim "when every strategy fails and no fallback
is available, the chain caches and returns the original raw title (or the id
itself if the title was empty)" is false for an empty title: the early
return of line 202-203 of `bot.py` returns the id without writing anything
to the cache, so `cache[id]` does not exist afterwards. -/
theorem translation_fallback_empty_title_cx :
    (translate_title_for_vid "v" "" [] [none, none, none, none, none] none).1 = "v" ∧
    lookupCache
      (translate_title_for_vid "v" "" [] [none, none, none, none, none] none).2.1
      "v" = none := by
  refine ⟨by decide, by decide⟩

/-- C6 (amended): for every id and non-empty raw title, when every
translation strategy fails (returns `None` or text stripping to empty), the
cache has no usable entry, and no static fallback value is available, the
translation chain caches the original raw title under the id and returns it
after invoking every strategy; when the raw title is empty it returns the id
immediately without touching the cache.  The chain is a total function:
translation failure never raises. -/
theorem translation_total_fallback (vid title : String)
    (cache : List (String × String)) (strategies : List (Option String))
    (fallback_file : Option String)
    (htitle : title ≠ "")
    (hmiss : (lookupCache cache vid).getD "" = "")
    (hstrat : strategies.all strategyFails = true)
    (hfb : ∀ f, fallback_file = some f → f.trim = "") :
    translate_title_for_vid vid title cache strategies fallback_file
      = (title, cacheSet cache vid title, strategies.length) ∧
    lookupCache (cacheSet cache vid title) vid = some title ∧
    (translate_title_for_vid vid title [] strategies fallback_file).1 = title := by
  have hstrat' := tryStrategies_all_fail strategies hstrat
  have hmain : ∀ c : List (String × String), (lookupCache c vid).getD "" = "" →
      translate_title_for_vid vid title c strategies fallback_file
        = (title, cacheSet c vid title, strategies.length) := by
    intro c hc
    cases hfbcase : fallback_file with
    | none =>
      simp [translate_title_for_vid, htitle, hc, hstrat', pyOr]
    | some content =>
      have hct : content.trim = "" := hfb content hfbcase
      simp [translate_title_for_vid, htitle, hc, hstrat', hct, pyOr]
  refine ⟨hmain cache hmiss, ?_, ?_⟩
  · exact lookupCache_cacheSet_self cache vid title
  · rw [hmain [] (by simp [lookupCache])]

/-- C6 witness: with a failing strategy list and no fallback file the chain
caches and returns the raw title. -/
theorem translation_total_fallback_witness :
    translate_title_for_vid "v" "t" [] [none, none] none
      = ("t", [("v", "t")], 2) :=
  (translation_total_fallback "v" "t" [] [none, none] none (by decide)
    (by decide) (by decide) (fun f h => by cases h)).1

/-! ## Upload adapter (`youtube_upload_video`, lines 340-410)

One `request.next_chunk()` call (line 366) is one transfer attempt; its
outcome is modelled by `FetchOutcome`.  The adapter's `while response is
None` loop is driven by the list of outcomes the successive `next_chunk`
calls would produce. -/

/-- Outcome of one `request.next_chunk()` call inside
`youtube_upload_video`. -/
inductive FetchOutcome where
  /-- `next_chunk` returned a final response; `videoId` is `response["id"]`
  when present (line 383), `none` when the response lacks an id
  (the `raise` at line 387, caught by the generic handler at line 403). -/
  | chunkDone (videoId : Option String)
  /-- `next_chunk` returned a progress status, `response` still `None`. -/
  | chunkProgress
  /-- `next_chunk` raised `HttpError`; the payload is `e.resp.status`
  (`none` when reading it failed, lines 390-394). -/
  | httpErr (code : Option Nat)
  /-- `next_chunk` raised some other exception (line 403). -/
  | exn
deriving DecidableEq

/-- `MAX_RETRIES` at line 362 of `bot.py`. -/
def MAX_RETRIES : Nat := 12

/-- The non-retryable HTTP classification at line 396:
`status_code and 400 <= status_code < 500 and status_code not in (429, 408)`. -/
def nonRetryable : Option Nat → Bool
  | none => false
  | some c => decide (400 ≤ c ∧ c < 500 ∧ c ≠ 429 ∧ c ≠ 408)

/-- Result of `youtube_upload_video`. -/
inductive UploadResult where
  /-- returned `response["id"]` (line 385). -/
  | ok (videoId : String)
  /-- an exception propagated out of the function
  (lines 397, 399, 407). -/
  | raised
  /-- the function fell out of the `while` loop and returned Python `None`:
  the response arrived without an id, the `raise` at line 387 was caught at
  line 403, and after the sleep the loop condition `response is None` is
  false. -/
  | noneReturned
  /-- the outcome stream was exhausted (model artifact standing for an
  upload still in progress). -/
  | hung
deriving DecidableEq

/-- The `while response is None` loop of lines 363-410, returning the
result together with the number of `next_chunk` calls performed.  `retry`
is the retry counter of line 361. -/
def uploadLoop : List FetchOutcome → Nat → UploadResult × Nat
  | [], _ => (UploadResult.hung, 0)
  | o :: rest, retry =>
    match o with
    | FetchOutcome.chunkDone (some i) => (UploadResult.ok i, 1)
    | FetchOutcome.chunkDone none =>
      -- line 387 raise, caught at line 403: retry += 1, then either
      -- re-raise (retry > MAX_RETRIES) or sleep; the loop then exits
      -- because `response` is no longer None, returning Python None.
      if MAX_RETRIES < retry + 1 then (UploadResult.raised, 1)
      else (UploadResult.noneReturned, 1)
    | FetchOutcome.chunkProgress =>
      ((uploadLoop rest retry).1, (uploadLoop rest retry).2 + 1)
    | FetchOutcome.httpErr code =>
      -- lines 388-402: retry += 1; non-retryable 4xx raises immediately;
      -- then the budget check; otherwise sleep with backoff and retry.
      if nonRetryable code then (UploadResult.raised, 1)
      else if MAX_RETRIES < retry + 1 then (UploadResult.raised, 1)
      else ((uploadLoop rest (retry + 1)).1, (uploadLoop rest (retry + 1)).2 + 1)
    | FetchOutcome.exn =>
      -- lines 403-410: retry += 1; budget check; else sleep and retry.
      if MAX_RETRIES < retry + 1 then (UploadResult.raised, 1)
      else ((uploadLoop rest (retry + 1)).1, (uploadLoop rest (retry + 1)).2 + 1)

/-- `youtube_upload_video` (lines 340-410), as a function of the outcomes
of the successive `next_chunk` calls.  Returns the result and the number of
transfer attempts performed. -/
def youtube_upload_video (outcomes : List FetchOutcome) : UploadResult × Nat :=
  uploadLoop outcomes 0

/-- A `next_chunk` outcome the adapter treats as transient and retries
internally (lines 388-410): a generic exception, or an `HttpError` whose
status is outside the non-retryable 4xx class of line 396 — so a 5xx, a
429, a 408, or an unreadable status. -/
def transientFailure : FetchOutcome → Bool
  | FetchOutcome.exn => true
  | FetchOutcome.httpErr code => !nonRetryable code
  | FetchOutcome.chunkDone _ => false
  | FetchOutcome.chunkProgress => false

lemma uploadLoop_transient_exhausts :
    ∀ (l : List FetchOutcome), l.all transientFailure = true →
    ∀ retry, retry ≤ MAX_RETRIES → MAX_RETRIES + 1 - retry ≤ l.length →
    uploadLoop l retry = (UploadResult.raised, MAX_RETRIES + 1 - retry) := by
  intro l
  induction l with
  | nil =>
    intro _ retry hr hn
    exfalso
    simp [MAX_RETRIES] at hn hr
    omega
  | cons o rest ih =>
    intro hall retry hr hn
    rw [List.all_cons, Bool.and_eq_true] at hall
    have hrest := hall.2
    have hlen : MAX_RETRIES + 1 - (retry + 1) ≤ rest.length := by
      simp only [List.length_cons] at hn
      omega
    cases o with
    | chunkDone v =>
      exfalso
      simpa [transientFailure] using hall.1
    | chunkProgress =>
      exfalso
      simpa [transientFailure] using hall.1
    | exn =>
      by_cases h : MAX_RETRIES < retry + 1
      · have hret : retry = MAX_RETRIES := by omega
        subst hret
        simp [uploadLoop, MAX_RETRIES]
      · simp only [uploadLoop, if_neg h]
        rw [ih hrest (retry + 1) (by omega) hlen]
        simp
        omega
    | httpErr code =>
      have hnr : nonRetryable code = false := by
        simpa [transientFailure] using hall.1
      by_cases h : MAX_RETRIES < retry + 1
      · have hret : retry = MAX_RETRIES := by omega
        subst hret
        simp [uploadLoop, hnr, MAX_RETRIES]
      · simp only [uploadLoop, hnr, Bool.false_eq_true, if_false, if_neg h]
        rw [ih hrest (retry + 1) (by omega) hlen]
        simp
        omega

/-- C4 counterexample: the claim "the upload adapter performs no retries of
its own: any failure propagates to the run controller after a single
transfer attempt" is false: when the first `next_chunk` call raises a
generic exception and the second succeeds, `youtube_upload_video` sleeps,
re-attempts internally and returns the video id after two transfer
attempts — the failure never propagates. -/
theorem upload_adapter_retries_internally_cx :
    youtube_upload_video
        [FetchOutcome.exn, FetchOutcome.chunkDone (some "yt123")]
      = (UploadResult.ok "yt123", 2) := by
  decide

/-- C4 (amended): the upload adapter retries transient failures — generic
exceptions, and HTTP errors outside the non-retryable 4xx class (a 5xx, a
429, a 408, or an unreadable status) — internally with
exponential-backoff sleeps instead of propagating them: any such
transient failure followed by a successful chunk yields the video id
after two transfer attempts, and a run of 13 consecutive transient
failures of any mix propagates only after exactly 13 transfer attempts
(`MAX_RETRIES = 12` internal retries).  Only a non-retryable 4xx HTTP
error (status 400-499 excluding 429 and 408) propagates to the run
controller after a single transfer attempt. -/
theorem upload_adapter_retry_policy (fails : List FetchOutcome)
    (hfails : fails.all transientFailure = true) (hlen : 13 ≤ fails.length)
    (o : FetchOutcome) (ho : transientFailure o = true) (i : String)
    (rest2 : List FetchOutcome) (c : Nat) (hc4 : 400 ≤ c) (hc5 : c < 500)
    (h429 : c ≠ 429) (h408 : c ≠ 408) (rest : List FetchOutcome) :
    youtube_upload_video fails = (UploadResult.raised, 13) ∧
    youtube_upload_video (o :: FetchOutcome.chunkDone (some i) :: rest2)
      = (UploadResult.ok i, 2) ∧
    youtube_upload_video (FetchOutcome.httpErr (some c) :: rest)
      = (UploadResult.raised, 1) := by
  refine ⟨?_, ?_, ?_⟩
  · have := uploadLoop_transient_exhausts fails hfails 0
      (by simp [MAX_RETRIES]) (by simp [MAX_RETRIES]; omega)
    simpa [youtube_upload_video, MAX_RETRIES] using this
  · cases o with
    | chunkDone v => exact absurd ho (by simp [transientFailure])
    | chunkProgress => exact absurd ho (by simp [transientFailure])
    | exn => simp [youtube_upload_video, uploadLoop, MAX_RETRIES]
    | httpErr code =>
      have hnr : nonRetryable code = false := by
        simpa [transientFailure] using ho
      simp [youtube_upload_video, uploadLoop, hnr, MAX_RETRIES]
  · have hnr : nonRetryable (some c) = true := by
      simp [nonRetryable]
      exact ⟨hc4, hc5, h429, h408⟩
    simp [youtube_upload_video, uploadLoop, hnr]

/-- C4 witness: 13 consecutive retryable 500s propagate after 13 attempts;
a retryable 429 followed by a successful chunk yields the id after 2
attempts (retried internally, nothing propagates); a 403 propagates after
one attempt. -/
theorem upload_adapter_retry_policy_witness :
    youtube_upload_video (List.replicate 13 (FetchOutcome.httpErr (some 500)))
      = (UploadResult.raised, 13) ∧
    youtube_upload_video [FetchOutcome.httpErr (some 429),
        FetchOutcome.chunkDone (some "yt1")] = (UploadResult.ok "yt1", 2) ∧
    youtube_upload_video [FetchOutcome.httpErr (some 403)]
      = (UploadResult.raised, 1) :=
  upload_adapter_retry_policy
    (List.replicate 13 (FetchOutcome.httpErr (some 500))) (by decide)
    (by decide) (FetchOutcome.httpErr (some 429)) (by decide) "yt1" []
    403 (by decide) (by decide) (by decide) (by decide) []

/-! ## Download-retry engine (lines 531-569)

The inner `while attempt < DOWNLOAD_RETRIES and not download_ok` loop of
`main`.  One iteration runs `yt-dlp` once and then validates the produced
file (`find_downloaded_file_by_prefix` plus the `> 100` byte size check at
line 558); `attemptOk k` records whether the k-th attempt (1-based, the
value of `attempt` at line 535) passes that validation.  Cleanup of partial
files and the randomized inter-attempt sleep (lines 563-567) do not affect
the counters. -/

/-- The download loop with `rem = DOWNLOAD_RETRIES - attempt` remaining
iterations.  Returns `(download_ok, attempt)` — the final value of the
`attempt` counter is the number of `yt-dlp` invocations performed. -/
def dlGo (attemptOk : Nat → Bool) : Nat → Nat → Bool × Nat
  | 0, attempt => (false, attempt)
  | rem + 1, attempt =>
    if attemptOk (attempt + 1) then (true, attempt + 1)
    else dlGo attemptOk rem (attempt + 1)

/-- The whole retry loop of lines 531-569: start with `attempt = 0` and at
most `retries = DOWNLOAD_RETRIES` iterations. -/
def downloadEngine (retries : Nat) (attemptOk : Nat → Bool) : Bool × Nat :=
  dlGo attemptOk retries 0

lemma dlGo_attempts_le (attemptOk : Nat → Bool) :
    ∀ rem attempt, (dlGo attemptOk rem attempt).2 ≤ attempt + rem := by
  intro rem
  induction rem with
  | zero => intro attempt; simp [dlGo]
  | succ m ih =>
    intro attempt
    rw [dlGo]
    split
    · simp
    · have := ih (attempt + 1)
      simp
      omega

lemma dlGo_first_success (attemptOk : Nat → Bool) :
    ∀ rem attempt k, attempt < k → k ≤ attempt + rem → attemptOk k = true →
    (∀ j, j < k → attempt < j → attemptOk j = false) →
    dlGo attemptOk rem attempt = (true, k) := by
  intro rem
  induction rem with
  | zero => intro attempt k h1 h2; omega
  | succ m ih =>
    intro attempt k h1 h2 hk hmin
    rw [dlGo]
    by_cases he : k = attempt + 1
    · subst he
      simp [hk]
    · have hfail : attemptOk (attempt + 1) = false := by
        exact hmin (attempt + 1) (by omega) (by omega)
      rw [if_neg (by simp [hfail])]
      exact ih (attempt + 1) k (by omega) (by omega) hk
        (fun j hj1 hj2 => hmin j hj1 (by omega))

/-- C2: for every candidate, the download engine performs at most
`retries = DOWNLOAD_RETRIES` `yt-dlp` invocations before the candidate is
classified as a skip, and on the first successful attempt `k` the loop
stops at exactly `k` invocations — no further attempt is made after a
success. -/
theorem download_retry_bound (retries : Nat) (attemptOk : Nat → Bool) :
    (downloadEngine retries attemptOk).2 ≤ retries ∧
    (∀ k, k ≤ retries → 1 ≤ k → attemptOk k = true →
      (∀ j, j < k → 1 ≤ j → attemptOk j = false) →
      downloadEngine retries attemptOk = (true, k)) := by
  constructor
  · have := dlGo_attempts_le attemptOk retries 0
    simpa [downloadEngine] using this
  · intro k hk h1 hsucc hmin
    exact dlGo_first_success attemptOk retries 0 k (by omega) (by omega) hsucc
      (fun j hj1 hj2 => hmin j hj1 (by omega))

/-- C2 witness: with a budget of 3 attempts and the second attempt
succeeding, the engine stops after exactly 2 invocations. -/
theorem download_retry_bound_witness :
    (downloadEngine 3 (fun n => n == 2)).2 ≤ 3 ∧
    downloadEngine 3 (fun n => n == 2) = (true, 2) :=
  ⟨(download_retry_bound 3 (fun n => n == 2)).1,
    (download_retry_bound 3 (fun n => n == 2)).2 2 (by decide) (by decide)
      (by decide) (by decide)⟩

/-! ## Run controller main loop (`main`, lines 487-645)

The loop `while successes < MAX_VIDEOS and idx < len(candidates) and skips
< SKIP_LIMIT`.  Per candidate, the relevant effects are: whether the inner
download loop ends with `download_ok` (lines 531-569, verified separately
as `downloadEngine`), and what `youtube_upload_video` does (lines 581-604).
Both are abstracted as per-candidate outcome functions in `Env`.  The
observable actions of an iteration are recorded in a trace. -/

/-- One candidate dict (line 461/477): only the `id` matters to the loop
bookkeeping. -/
structure Candidate where
  id : String
deriving DecidableEq

/-- Outcome of the `youtube_upload_video` call at lines 585-592 as seen by
the controller: it either raises (caught at line 593) or returns an
optional video id (`none` for Python `None`). -/
inductive UploadOutcome where
  | raised
  | returned (videoId : Option String)
deriving DecidableEq

/-- The configuration and external-world behaviour the loop branches on. -/
structure Env where
  /-- `MAX_VIDEOS` (line 36). -/
  MAX_VIDEOS : Nat
  /-- `SKIP_LIMIT` (line 49). -/
  SKIP_LIMIT : Nat
  /-- whether the download loop of lines 531-569 ends with
  `download_ok = True` for this candidate id. -/
  download_ok : String → Bool
  /-- outcome of the upload call for this candidate id. -/
  upload : String → UploadOutcome

/-- Observable actions of one iteration of the main loop. -/
inductive Event where
  /-- `print(f"Processing candidate {vid} ...")`, line 497. -/
  | beginItem (vid : String)
  /-- the candidate was skipped (`skips += 1`, lines 572, 599, 638). -/
  | skipItem (vid : String)
  /-- `downloaded_ids.add(vid)` plus the ledger save, lines 620-621. -/
  | ledgerCommit (vid : String)
  /-- the politeness delay `time.sleep(random.uniform(1.0, 2.0))`,
  line 643. -/
  | politeness
deriving DecidableEq

/-- In-memory loop state (`successes`, `skips`, `idx` of lines 487-489,
the `downloaded_ids` set, and the trace of observable actions). -/
structure LoopState where
  successes : Nat
  skips : Nat
  idx : Nat
  downloaded_ids : List String
  trace : List Event
deriving DecidableEq

/-- `downloaded_ids.add(vid)` (line 620): Python set insertion. -/
def insertId (x : String) (l : List String) : List String :=
  if x ∈ l then l else l ++ [x]

/-- One iteration of the `while` body, lines 493-643.  Returns the new
state and whether the iteration ended in `break`.  Lines 499-529 (metadata
fetch, title translation — verified separately as
`translate_title_for_vid` — and the best-effort thumbnail download) touch
neither the counters nor the ledger and are elided. -/
def iterate (env : Env) (cand : Candidate) (st : LoopState) :
    LoopState × Bool :=
  -- lines 493-497: cand = candidates[idx]; idx += 1
  let vid := cand.id
  let st1 : LoopState :=
    { st with idx := st.idx + 1, trace := st.trace ++ [Event.beginItem vid] }
  if env.download_ok vid = false then
    -- lines 571-579: skips += 1; `continue` — no politeness delay.
    ({ st1 with
        skips := st1.skips + 1
        trace := st1.trace ++ [Event.skipItem vid] }, false)
  else
    match env.upload vid with
    | UploadOutcome.raised =>
      -- lines 593-604: skips += 1; break if skips >= SKIP_LIMIT, else
      -- `continue` — either way no politeness delay.
      ({ st1 with
          skips := st1.skips + 1
          trace := st1.trace ++ [Event.skipItem vid] },
        decide (env.SKIP_LIMIT ≤ st1.skips + 1))
    | UploadOutcome.returned v =>
      if truthy v then
        -- lines 606-630: ledger add + save, successes += 1; then the
        -- politeness delay at line 643.
        ({ st1 with
            downloaded_ids := insertId vid st1.downloaded_ids
            successes := st1.successes + 1
            trace := st1.trace
              ++ [Event.ledgerCommit vid, Event.politeness] }, false)
      else
        -- lines 631-641: skips += 1; break if skips >= SKIP_LIMIT,
        -- otherwise fall through to the politeness delay at line 643.
        if env.SKIP_LIMIT ≤ st1.skips + 1 then
          ({ st1 with
              skips := st1.skips + 1
              trace := st1.trace ++ [Event.skipItem vid] }, true)
        else
          ({ st1 with
              skips := st1.skips + 1
              trace := st1.trace
                ++ [Event.skipItem vid, Event.politeness] }, false)

/-- The `while` loop of lines 492-643, driven by fuel.  `idx` strictly
increases every iteration and the guard requires `idx < cands.length`, so
`fuel = cands.length` iterations always suffice (see `mainRun`). -/
def runLoop (env : Env) (cands : List Candidate) : Nat → LoopState → LoopState
  | 0, st => st
  | fuel + 1, st =>
    if h : st.successes < env.MAX_VIDEOS ∧ st.idx < cands.length
        ∧ st.skips < env.SKIP_LIMIT then
      if (iterate env (cands.get ⟨st.idx, h.2.1⟩) st).2 then
        (iterate env (cands.get ⟨st.idx, h.2.1⟩) st).1
      else
        runLoop env cands fuel (iterate env (cands.get ⟨st.idx, h.2.1⟩) st).1
    else st

/-- State at lines 487-489: counters zeroed, `downloaded_ids` as loaded
from the ledger at line 446. -/
def initState (ids0 : List String) : LoopState :=
  { successes := 0, skips := 0, idx := 0, downloaded_ids := ids0, trace := [] }

/-- The whole candidate-processing phase of `main`. -/
def mainRun (env : Env) (cands : List Candidate) (ids0 : List String) :
    LoopState :=
  runLoop env cands cands.length (initState ids0)

lemma mem_insertId {y x : String} {l : List String} :
    y ∈ insertId x l → y ∈ l ∨ y = x := by
  intro h
  unfold insertId at h
  by_cases hx : x ∈ l
  · rw [if_pos hx] at h
    exact Or.inl h
  · rw [if_neg hx] at h
    rcases List.mem_append.mp h with h' | h'
    · exact Or.inl h'
    · exact Or.inr (List.mem_singleton.mp h')

lemma iterate_successes_le (env : Env) (cand : Candidate) (st : LoopState) :
    st.successes ≤ (iterate env cand st).1.successes ∧
    (iterate env cand st).1.successes ≤ st.successes + 1 := by
  unfold iterate
  dsimp only
  split
  · simp
  · split
    · simp
    · split
      · simp
      · split <;> simp

lemma iterate_skips_le (env : Env) (cand : Candidate) (st : LoopState) :
    st.skips ≤ (iterate env cand st).1.skips ∧
    (iterate env cand st).1.skips ≤ st.skips + 1 := by
  unfold iterate
  dsimp only
  split
  · simp
  · split
    · simp
    · split
      · simp
      · split <;> simp

lemma mem_iterate_ids (env : Env) (cand : Candidate) (st : LoopState)
    {x : String} (h : x ∈ (iterate env cand st).1.downloaded_ids) :
    x ∈ st.downloaded_ids ∨
      (x = cand.id ∧ ∃ v, env.upload cand.id = UploadOutcome.returned v
        ∧ truthy v = true) := by
  unfold iterate at h
  by_cases hd : env.download_ok cand.id = false
  · rw [if_pos hd] at h
    exact Or.inl h
  · rw [if_neg hd] at h
    revert h
    cases hu : env.upload cand.id with
    | raised => intro h; exact Or.inl h
    | returned v =>
      by_cases ht : truthy v = true
      · simp only [ht, if_true]
        intro h
        rcases mem_insertId h with h' | h'
        · exact Or.inl h'
        · exact Or.inr ⟨h', v, rfl, ht⟩
      · simp only [Bool.not_eq_true] at ht
        simp only [ht, Bool.false_eq_true, if_false]
        split <;> (intro h; exact Or.inl h)

lemma runLoop_preserve (env : Env) (cands : List Candidate)
    (P : LoopState → Prop)
    (hstep : ∀ cand st, st.successes < env.MAX_VIDEOS →
      st.skips < env.SKIP_LIMIT → P st → P (iterate env cand st).1) :
    ∀ fuel st, P st → P (runLoop env cands fuel st) := by
  intro fuel
  induction fuel with
  | zero => intro st hP; simpa [runLoop] using hP
  | succ m ih =>
    intro st hP
    rw [runLoop]
    split
    · case isTrue h =>
      split
      · exact hstep _ st h.1 h.2.2 hP
      · exact ih _ (hstep _ st h.1 h.2.2 hP)
    · exact hP

lemma runLoop_stopped (env : Env) (cands : List Candidate) (fuel : Nat)
    (st : LoopState)
    (h : ¬(st.successes < env.MAX_VIDEOS ∧ st.idx < cands.length
      ∧ st.skips < env.SKIP_LIMIT)) :
    runLoop env cands fuel st = st := by
  cases fuel with
  | zero => rfl
  | succ m => rw [runLoop, dif_neg h]

/-- C1: throughout a run of the controller the counters satisfy
`successes ≤ MAX_VIDEOS` and `skips ≤ SKIP_LIMIT` — for every amount of
fuel (i.e., after every number of completed iterations) both bounds hold —
and once `successes` has reached the quota, `skips` has reached the budget,
or the candidate cursor has exhausted the sequence, the loop processes no
further candidate: from any such state `runLoop` returns immediately,
leaving the state untouched. -/
theorem run_controller_bounds (env : Env) (cands : List Candidate)
    (ids0 : List String) (fuel : Nat) :
    (runLoop env cands fuel (initState ids0)).successes ≤ env.MAX_VIDEOS ∧
    (runLoop env cands fuel (initState ids0)).skips ≤ env.SKIP_LIMIT ∧
    (∀ st : LoopState,
      ¬(st.successes < env.MAX_VIDEOS ∧ st.idx < cands.length
        ∧ st.skips < env.SKIP_LIMIT) →
      runLoop env cands fuel st = st) := by
  have hmain := runLoop_preserve env cands
    (fun st => st.successes ≤ env.MAX_VIDEOS ∧ st.skips ≤ env.SKIP_LIMIT)
    (fun cand st hs hk _ =>
      ⟨le_trans (iterate_successes_le env cand st).2 hs,
       le_trans (iterate_skips_le env cand st).2 hk⟩)
    fuel (initState ids0) ⟨Nat.zero_le _, Nat.zero_le _⟩
  exact ⟨hmain.1, hmain.2, fun st h => runLoop_stopped env cands fuel st h⟩

/-- C1 witness: concrete bounds at a small run (quota 1, budget 1, two
candidates, first succeeds). -/
theorem run_controller_bounds_witness :
    (runLoop (Env.mk 1 1 (fun _ => true)
        (fun _ => UploadOutcome.returned (some "y")))
      [Candidate.mk "A", Candidate.mk "B"] 2 (initState [])).successes
      ≤ 1 ∧
    (runLoop (Env.mk 1 1 (fun _ => true)
        (fun _ => UploadOutcome.returned (some "y")))
      [Candidate.mk "A", Candidate.mk "B"] 2 (initState [])).skips ≤ 1 :=
  ⟨(run_controller_bounds (Env.mk 1 1 (fun _ => true)
      (fun _ => UploadOutcome.returned (some "y")))
      [Candidate.mk "A", Candidate.mk "B"] [] 2).1,
   (run_controller_bounds (Env.mk 1 1 (fun _ => true)
      (fun _ => UploadOutcome.returned (some "y")))
      [Candidate.mk "A", Candidate.mk "B"] [] 2).2.1⟩

/-- C3: for every candidate whose upload fails — the upload call raises, or
returns no (or an empty) video id — that candidate's id is never added to
the processed-ID set: an id absent from the set before the run is still
absent after it; and in general the set gains an id only through a
confirmed successful (truthy-id) upload of that id. -/
theorem upload_failure_no_ledger_mutation (env : Env)
    (cands : List Candidate) (ids0 : List String) (fuel : Nat)
    (vid : String) (hnotin : vid ∉ ids0)
    (hfail : ∀ v, env.upload vid = UploadOutcome.returned v →
      truthy v = false) :
    vid ∉ (runLoop env cands fuel (initState ids0)).downloaded_ids ∧
    (∀ x, x ∈ (runLoop env cands fuel (initState ids0)).downloaded_ids →
      x ∈ ids0 ∨ ∃ v, env.upload x = UploadOutcome.returned v
        ∧ truthy v = true) := by
  constructor
  · exact runLoop_preserve env cands
      (fun st => vid ∉ st.downloaded_ids)
      (fun cand st _ _ hP hmem => by
        rcases mem_iterate_ids env cand st hmem with h' | ⟨hx, v, hv, ht⟩
        · exact hP h'
        · subst hx
          rw [hfail v hv] at ht
          exact Bool.false_ne_true ht)
      fuel (initState ids0) hnotin
  · exact runLoop_preserve env cands
      (fun st => ∀ x, x ∈ st.downloaded_ids →
        x ∈ ids0 ∨ ∃ v, env.upload x = UploadOutcome.returned v
          ∧ truthy v = true)
      (fun cand st _ _ hP x hmem => by
        rcases mem_iterate_ids env cand st hmem with h' | ⟨hx, v, hv, ht⟩
        · exact hP x h'
        · subst hx
          exact Or.inr ⟨v, hv, ht⟩)
      fuel (initState ids0) (fun x hx => Or.inl (by simpa [initState] using hx))

/-- C3 witness: with an upload that always raises, a candidate id absent
from the initial ledger stays absent after the run. -/
theorem upload_failure_no_ledger_mutation_witness :
    "A" ∉ (runLoop (Env.mk 1 5 (fun _ => true) (fun _ => UploadOutcome.raised))
      [Candidate.mk "A"] 1 (initState [])).downloaded_ids :=
  (upload_failure_no_ledger_mutation
    (Env.mk 1 5 (fun _ => true) (fun _ => UploadOutcome.raised))
    [Candidate.mk "A"] [] 1 "A" (by decide)
    (fun v h => UploadOutcome.noConfusion h)).1

/-! ## C8: the politeness delay (line 643)

`time.sleep(random.uniform(1.0, 2.0))` at line 643 is the last statement of
the loop body, but the download-failure path (`continue` at line 579) and
the upload-exception path (`continue` at line 604) jump back to the loop
head without reaching it. -/

/-- Environment for the C8 counterexample: candidate "A"'s download fails
every attempt, candidate "B" downloads and uploads fine; quota and budget
are large enough that both iterations run. -/
def envC8 : Env :=
  Env.mk 5 5 (fun v => v == "B") (fun _ => UploadOutcome.returned (some "yt1"))

/-- C8 counterexample: the claim "a politeness delay is applied before the
next candidate is processed regardless of the iteration's outcome" is
false: when candidate "A" fails its download, the `continue` at line 579
bypasses the sleep at line 643, and candidate "B" is processed with no
politeness delay having occurred. -/
theorem politeness_skipped_on_failure_cx :
    Event.beginItem "B" ∈ (mainRun envC8 [Candidate.mk "A", Candidate.mk "B"] []).trace ∧
    Event.politeness ∉
      ((mainRun envC8 [Candidate.mk "A", Candidate.mk "B"] []).trace.takeWhile
        (fun e => e != Event.beginItem "B")) ∧
    Event.skipItem "A" ∈
      ((mainRun envC8 [Candidate.mk "A", Candidate.mk "B"] []).trace.takeWhile
        (fun e => e != Event.beginItem "B")) := by
  refine ⟨by decide, by decide, by decide⟩

/-- C8 (amended): the politeness delay of line 643 runs only at the end of
iterations that reach the upload stage and do not break out: after a
successful (truthy-id) upload, and after an upload returning no id while
the incremented skip counter is still below the budget.  Iterations ending
in download failure or in an upload exception continue to the next
candidate with no politeness delay, as do the break paths. -/
theorem politeness_policy (env : Env) (cand : Candidate) (st : LoopState) :
    (env.download_ok cand.id = false →
      (iterate env cand st).1.trace
        = st.trace ++ [Event.beginItem cand.id, Event.skipItem cand.id]) ∧
    (env.upload cand.id = UploadOutcome.raised →
      (iterate env cand st).1.trace
        = st.trace ++ [Event.beginItem cand.id, Event.skipItem cand.id]) ∧
    (∀ v, env.upload cand.id = UploadOutcome.returned v → truthy v = true →
      env.download_ok cand.id = true →
      (iterate env cand st).1.trace
        = st.trace ++ [Event.beginItem cand.id, Event.ledgerCommit cand.id,
            Event.politeness]) ∧
    (∀ v, env.upload cand.id = UploadOutcome.returned v → truthy v = false →
      env.download_ok cand.id = true → st.skips + 1 < env.SKIP_LIMIT →
      (iterate env cand st).1.trace
        = st.trace ++ [Event.beginItem cand.id, Event.skipItem cand.id,
            Event.politeness]) := by
  refine ⟨?_, ?_, ?_, ?_⟩
  · intro hd
    simp [iterate, hd]
  · intro hu
    by_cases hd : env.download_ok cand.id = false
    · simp [iterate, hd]
    · simp [iterate, hd, hu]
  · intro v hu ht hd
    simp [iterate, hd, hu, ht]
  · intro v hu ht hd hs
    simp [iterate, hd, hu, ht, Nat.not_le.mpr hs]

/-- C8 witness: a download-failure iteration emits no politeness event,
while a successful iteration ends with one. -/
theorem politeness_policy_witness :
    (iterate envC8 (Candidate.mk "A") (initState [])).1.trace
      = [] ++ [Event.beginItem "A", Event.skipItem "A"] ∧
    (iterate envC8 (Candidate.mk "B") (initState [])).1.trace
      = [] ++ [Event.beginItem "B", Event.ledgerCommit "B", Event.politeness] :=
  ⟨(politeness_policy envC8 (Candidate.mk "A") (initState [])).1 (by decide),
   (politeness_policy envC8 (Candidate.mk "B") (initState [])).2.2.1 (some "yt1")
     rfl (by decide) (by decide)⟩

/-! ## C9: the transient cookie file (lines 423-427, 481-483, 647-654)

`main` writes `cookies.txt` at lines 423-427 when `BILIBILI_COOKIES` is
set.  The only deletion is the block at lines 647-654, at the very end of
`main`'s body.  The `raise SystemExit` at line 444 (startup auth failure)
and the `return` at line 483 (no candidates found) leave `main` before that
block. -/

/-- Startup configuration of `main` relevant to the cookie file. -/
structure MainConfig where
  /-- whether `BILIBILI_COOKIES` is set (line 37/424). -/
  cookiesEnvSet : Bool
  /-- whether `get_youtube_service()` (lines 440-444) succeeds. -/
  authOk : Bool
deriving DecidableEq

/-- How `main` exits. -/
inductive MainExit where
  /-- the `raise SystemExit` at line 444. -/
  | authFailure
  /-- the `return` at line 483. -/
  | noCandidates
  /-- fell off the end of `main` (line 654). -/
  | normal
deriving DecidableEq

/-- Observable result of `main`: the exit path taken, whether `cookies.txt`
still exists on disk when `main` is left, and the final loop state (when
the loop ran). -/
structure MainResult where
  exit : MainExit
  cookieFileExists : Bool
  finalState : Option LoopState

/-- `main` (lines 422-654), as a function of its startup configuration, the
loop environment, the discovered candidate list (the discovery of lines
450-479 is modelled separately, see `probeLoop`) and the initially loaded
ledger. -/
def main (cfg : MainConfig) (env : Env) (cands : List Candidate)
    (ids0 : List String) : MainResult :=
  -- lines 423-427: write cookies.txt when BILIBILI_COOKIES is set
  let cookieWritten := cfg.cookiesEnvSet
  -- lines 440-444: SystemExit on auth failure, before any cleanup
  if cfg.authOk = false then
    { exit := MainExit.authFailure, cookieFileExists := cookieWritten,
      finalState := none }
  -- lines 481-483: early return when no candidates were discovered,
  -- before the cleanup block of lines 647-654
  else if cands.isEmpty then
    { exit := MainExit.noCandidates, cookieFileExists := cookieWritten,
      finalState := none }
  else
    -- lines 487-645: the main loop
    let fin := runLoop env cands cands.length (initState ids0)
    -- lines 647-654: cookies.txt is removed here (only reached on this
    -- path); when no cookie blob was supplied the file never existed
    { exit := MainExit.normal, cookieFileExists := false,
      finalState := some fin }

/-- Environment whose behaviour is irrelevant to the cookie lifecycle. -/
def envNoOp : Env :=
  Env.mk 1 5 (fun _ => true) (fun _ => UploadOutcome.raised)

/-- C9 counterexample: the claim "the transient cookie file is deleted by
run end on every exit path" is false: with a cookie blob supplied, the
no-candidates `return` at line 483 and the startup-auth `SystemExit` at
line 444 both leave `cookies.txt` on disk. -/
theorem cookie_file_left_behind_cx :
    (main (MainConfig.mk true true) envNoOp [] []).exit
      = MainExit.noCandidates ∧
    (main (MainConfig.mk true true) envNoOp [] []).cookieFileExists = true ∧
    (main (MainConfig.mk true false) envNoOp [Candidate.mk "A"] []).exit
      = MainExit.authFailure ∧
    ((main (MainConfig.mk true false) envNoOp [Candidate.mk "A"] []).cookieFileExists)
      = true := by
  refine ⟨by decide, by decide, by decide, by decide⟩

/-- C9 (amended): when an auth cookie blob is supplied, the transient
cookie file is deleted only on the exit path that runs `main` to its end —
startup authentication succeeded and at least one candidate was found; on
the startup-auth-failure path and on the no-candidates path the file is
still present when `main` exits. -/
theorem cookie_cleanup_paths (cfg : MainConfig) (env : Env)
    (cands : List Candidate) (ids0 : List String)
    (hcook : cfg.cookiesEnvSet = true) :
    (cfg.authOk = true → cands ≠ [] →
      (main cfg env cands ids0).cookieFileExists = false) ∧
    (cfg.authOk = false →
      (main cfg env cands ids0).cookieFileExists = true) ∧
    (cfg.authOk = true → cands = [] →
      (main cfg env cands ids0).cookieFileExists = true) := by
  refine ⟨?_, ?_, ?_⟩
  · intro ha hc
    simp [main, ha, hc]
  · intro ha
    simp [main, ha, hcook]
  · intro ha hc
    simp [main, ha, hc, hcook]

/-- C9 witness: with a cookie blob, auth success and one candidate the file
is gone at exit; with no candidates it is left behind. -/
theorem cookie_cleanup_paths_witness :
    ((main (MainConfig.mk true true) envNoOp [Candidate.mk "A"] []).cookieFileExists)
      = false ∧
    (main (MainConfig.mk true true) envNoOp [] []).cookieFileExists = true :=
  ⟨(cookie_cleanup_paths (MainConfig.mk true true) envNoOp [Candidate.mk "A"]
      [] (by decide)).1 (by decide) (by decide),
   (cookie_cleanup_paths (MainConfig.mk true true) envNoOp [] []
      (by decide)).2.2 (by decide) (by decide)⟩

/-! ## C7: the per-item fallback probe loop (lines 463-479)

`while len(candidates) < max_checks:` — the loop bound compares the number
of *collected candidates*, not the number of probes; the `idx > max_checks`
break (line 471-472) sits only inside the `if not data:` branch.  An
already-processed item reaches the `continue` at line 476 without any
bound check, so the number of `fetch_single_item_metadata` calls is not
bounded by `max_checks`. -/

/-- Result of `fetch_single_item_metadata` for one index: `noData` for a
Python `None` (no such item / all retries failed), `dataWithId vid` for a
metadata dict whose `"id"` field is `vid` (`""` models a missing/falsy
id). -/
inductive ProbeData where
  | noData
  | dataWithId (vid : String)
deriving DecidableEq

/-- The fallback loop of lines 466-479, with an explicit fuel bound (the
Python loop has none).  Arguments mirror the Python locals: `idx` (starts
at 1), the collected `candidates` (their ids) and a counter of
`fetch_single_item_metadata` calls performed.  Returns the collected
candidate ids and the call count. -/
def probeLoop (max_checks : Nat) (downloaded : List String)
    (fetch : Nat → ProbeData) :
    Nat → Nat → List String → Nat → List String × Nat
  | 0, _, cands, calls => (cands, calls)
  | fuel + 1, idx, cands, calls =>
    -- line 467: `while len(candidates) < max_checks:`
    if cands.length < max_checks then
      -- line 468-469: fetch, idx += 1
      match fetch idx with
      | ProbeData.noData =>
        -- lines 470-473: the only probe-count bound, `if idx > max_checks`
        if max_checks < idx + 1 then (cands, calls + 1)
        else probeLoop max_checks downloaded fetch fuel (idx + 1) cands (calls + 1)
      | ProbeData.dataWithId vid =>
        -- lines 474-476: falsy or already-processed id: `continue`
        -- with no bound check
        if vid = "" ∨ vid ∈ downloaded then
          probeLoop max_checks downloaded fetch fuel (idx + 1) cands (calls + 1)
        else
          -- lines 477-479
          let cands' := cands ++ [vid]
          if max_checks ≤ cands'.length then (cands', calls + 1)
          else probeLoop max_checks downloaded fetch fuel (idx + 1) cands' (calls + 1)
    else (cands, calls)

/-- The fallback discovery phase: `idx = 1`, no candidates collected, no
calls yet. -/
def fallbackDiscovery (max_checks : Nat) (downloaded : List String)
    (fetch : Nat → ProbeData) (fuel : Nat) : List String × Nat :=
  probeLoop max_checks downloaded fetch fuel 1 [] 0

/-- A channel with items at indices 1-5, all already processed, and
nothing beyond. -/
def probeFetchFiveProcessed : Nat → ProbeData
  | 1 => ProbeData.dataWithId "a1"
  | 2 => ProbeData.dataWithId "a2"
  | 3 => ProbeData.dataWithId "a3"
  | 4 => ProbeData.dataWithId "a4"
  | 5 => ProbeData.dataWithId "a5"
  | _ => ProbeData.noData

/-- A channel that reports an already-processed item at every index. -/
def probeFetchAllProcessed : Nat → ProbeData :=
  fun _ => ProbeData.dataWithId "a1"

lemma probeLoop_all_processed (fuel : Nat) :
    ∀ idx calls, probeLoop 2 ["a1"] probeFetchAllProcessed fuel idx [] calls
      = ([], calls + fuel) := by
  induction fuel with
  | zero => intro idx calls; simp [probeLoop]
  | succ m ih =>
    intro idx calls
    rw [probeLoop]
    simp only [List.length_nil, probeFetchAllProcessed]
    rw [if_pos (by omega), if_pos (by simp)]
    rw [ih (idx + 1) (calls + 1)]
    simp
    omega

/-- C7: the claim that the per-item fallback performs at most `max_checks`
metadata calls is violated by the code.  With `BILIBILI_MAX_CHECKS = 2` and
a channel whose first five items are already processed, the loop performs 6
`fetch_single_item_metadata` calls (> 2); and against a channel that keeps
reporting already-processed items the loop performs as many calls as it is
given fuel for — the `continue` at line 476 bypasses the only probe-count
bound, so probing does not stop while every probed item is already
processed. -/
theorem probe_budget_violation :
    (fallbackDiscovery 2 ["a1", "a2", "a3", "a4", "a5"]
      probeFetchFiveProcessed 10).2 = 6 ∧
    2 < (fallbackDiscovery 2 ["a1", "a2", "a3", "a4", "a5"]
      probeFetchFiveProcessed 10).2 ∧
    (∀ fuel, (fallbackDiscovery 2 ["a1"] probeFetchAllProcessed fuel).2
      = fuel) := by
  refine ⟨by decide, by decide, ?_⟩
  intro fuel
  rw [fallbackDiscovery, probeLoop_all_processed fuel 1 0]
  simp

end BiliBot
